import Mathlib

/-! The Oku C example (`examples/c/main.c`)

A shallow embedding of the four functions of the example program, `state`,
`view`, `update` and `main`, and of the part of the `oku_c.h` surface they
touch.  The header is not part of the sources at hand: its types are modelled
from the data model of the specification, and the values it only declares
(`default_styles()`, `new_update_result()`, `component`, `oku_main`) are
parameters of the embedding.

Conventions:

* a byte is a `Nat` below 256;
* a C pointer to bytes is the run of bytes readable from its address on
  (`BytePtr`); a string literal is its characters followed by the NUL;
* a C function that may write memory or standard output returns a record of
  its return value together with the memory and the output it leaves;
* `F` is the type of a pointer coordinate (a C floating-point number, never
  computed with here), `A` the aggregate of the style attributes other than
  the colour, `R` the type `CUpdateResult`.
-/

namespace OkuExample

/-! ## Bytes, strings and pointers -/

/-- Bytes readable from the address a C pointer holds, first byte first. -/
abbrev BytePtr := List Nat

/-- The bytes of a C string literal: one byte per character and the closing NUL. -/
def c_literal (s : String) : BytePtr :=
  s.toList.map Char.toNat ++ [0]

/-- The libc `strlen`: the number of bytes before the first NUL. -/
def strlen : BytePtr → Nat
  | [] => 0
  | b :: rest => if b = 0 then 0 else strlen rest + 1

/-- The `%s` conversion of `printf`: it reads bytes from the pointer up to the
first NUL.  The result is the text printed and the number of bytes read, the NUL
included; `none` when the readable memory ends before any NUL is met. -/
def percent_s : BytePtr → Option (List Nat × Nat)
  | [] => none
  | b :: rest =>
    if b = 0 then some ([], 1)
    else
      match percent_s rest with
      | none => none
      | some (text, n) => some (b :: text, n + 1)

/-- Modelled from the spec: `ByteBox` of `oku_c.h`, a byte payload that crosses
the foreign boundary as a length-tagged byte sequence. -/
structure ByteBox where
  data : List Nat
  len : Nat
  deriving DecidableEq

/-- Modelled from the spec: `new_byte_box(ptr, len)` of `oku_c.h`, which boxes
the `len` bytes found at `ptr`. -/
def new_byte_box (ptr : BytePtr) (len : Nat) : ByteBox :=
  { data := ptr.take len, len := len }

/-- Modelled from the spec: what a pointer to the bytes of a box reads, the
payload first and then whatever lies behind it in memory (`behind` is no part
of the box). -/
def ByteBox.as_ptr (b : ByteBox) (behind : BytePtr) : BytePtr :=
  b.data ++ behind

/-! ## Style and view nodes -/

/-- Modelled from the spec: a colour, four unsigned 8-bit channels. -/
structure Color where
  r : Nat
  g : Nat
  b : Nat
  a : Nat
  deriving DecidableEq

/-- Modelled from the spec: `color_rgba` of `oku_c.h`, value construction from
four 8-bit channels. -/
def color_rgba (r g b a : Nat) : Color :=
  { r := r % 256, g := g % 256, b := b % 256, a := a % 256 }

/-- Modelled from the spec: `Style` of `oku_c.h`, an aggregate of visual
attributes with a field `color`; `other` stands for all the remaining
attributes together. -/
structure Style (A : Type) where
  color : Color
  other : A
  deriving DecidableEq

/-- Modelled from the spec: `Text` of `oku_c.h`; it owns a string payload and a
style. -/
structure Text (A : Type) where
  content : List Nat
  style : Style A
  deriving DecidableEq

/-- Modelled from the spec: the uniform tree node `ComponentSpecification`.  It
wraps a view node (a text leaf, or a container with its ordered children), or
refers to a registered component by tag together with its props. -/
inductive ComponentSpecification (A : Type) where
  | text (t : Text A)
  | container (children : List (ComponentSpecification A)) (style : Style A)
  | component (tag : List Nat) (props : ByteBox)

/-- Modelled from the spec: `Container` of `oku_c.h`; it owns an ordered, maybe
empty, sequence of children and a style. -/
structure Container (A : Type) where
  children : List (ComponentSpecification A)
  style : Style A

/-- Modelled from the spec: `new_text` of `oku_c.h`, a text node with the given
NUL-terminated string as payload and the default style. -/
def new_text {A : Type} (default_styles : Style A) (s : BytePtr) : Text A :=
  { content := s.take (strlen s), style := default_styles }

/-- Modelled from the spec: `new_container(children, count)` of `oku_c.h`, a
container of the `count` children found at `children`, with the default style.
The null pointer is the empty list. -/
def new_container {A : Type} (default_styles : Style A)
    (children : List (ComponentSpecification A)) (count : Nat) : Container A :=
  { children := children.take count, style := default_styles }

/-- Modelled from the spec: `text_to_component` of `oku_c.h`, the conversion of
a text node into the uniform tree node. -/
def text_to_component {A : Type} (text : Text A) : ComponentSpecification A :=
  ComponentSpecification.text text

/-- Modelled from the spec: `container_to_component`, the same conversion for a
container. -/
def container_to_component {A : Type} (c : Container A) : ComponentSpecification A :=
  ComponentSpecification.container c.children c.style

/-- The kinds of tree node. -/
inductive NodeKind where
  | Text
  | Container
  | Component
  deriving DecidableEq

namespace ComponentSpecification

variable {A : Type}

/-- Text payload of the root node, when it is a text node. -/
def text_payload : ComponentSpecification A → Option (List Nat)
  | text t => some t.content
  | _ => none

/-- Style of the root node, when it carries one. -/
def node_style : ComponentSpecification A → Option (Style A)
  | text t => some t.style
  | container _ s => some s
  | component _ _ => none

/-- Children of the root node. -/
def node_children : ComponentSpecification A → List (ComponentSpecification A)
  | container cs _ => cs
  | _ => []

mutual
/-- Kinds of all the nodes of a tree, root first. -/
def kinds : ComponentSpecification A → List NodeKind
  | text _ => [NodeKind.Text]
  | container cs _ => NodeKind.Container :: kinds_list cs
  | component _ _ => [NodeKind.Component]
/-- Kinds of all the nodes of a sequence of trees. -/
def kinds_list : List (ComponentSpecification A) → List NodeKind
  | [] => []
  | c :: cs => kinds c ++ kinds_list cs
end

end ComponentSpecification

/-! ## Events -/

/-- Modelled from the spec: discriminant of the message an event carries,
framework-internal or user-defined. -/
inductive MessageTag where
  | OkuMessage
  | UserMessage
  deriving DecidableEq

/-- Modelled from the spec: discriminant of a framework-internal message.  Only
`PointerButtonEvent` is named by the example; `OtherMessage k` stands for every
other variant of the union. -/
inductive OkuMessageTag where
  | PointerButtonEvent
  | OtherMessage (k : Nat)
  deriving DecidableEq

/-- Modelled from the spec: state of a pointer button. -/
inductive ButtonState where
  | Pressed
  | Released
  deriving DecidableEq

/-- Modelled from the spec: a position in two floating-point coordinates. -/
structure Point (F : Type) where
  x : F
  y : F
  deriving DecidableEq

/-- Modelled from the spec: payload of `PointerButtonEvent`. -/
structure CPointerButton (F : Type) where
  position : Point F
  state : ButtonState
  deriving DecidableEq

/-- Modelled from the spec: a framework-internal message in its C encoding, a
discriminant next to the union member `pointer_button_event`, whose content
means something only when the discriminant is `PointerButtonEvent`. -/
structure COkuMessage (F : Type) where
  tag : OkuMessageTag
  pointer_button_event : CPointerButton F
  deriving DecidableEq

/-- Modelled from the spec: a message in its C encoding, a discriminant next to
the union member `oku_message`, whose content means something only when the
discriminant is `OkuMessage`. -/
structure CMessage (F : Type) where
  tag : MessageTag
  oku_message : COkuMessage F
  deriving DecidableEq

/-- Modelled from the spec: the envelope `CEvent` delivered to `update`. -/
structure CEvent (F : Type) where
  message : CMessage F
  deriving DecidableEq

/-- The framework-internal pointer button event at a position, in a state. -/
def pointer_button {F : Type} (x y : F) (s : ButtonState) : CEvent F :=
  { message :=
      { tag := MessageTag.OkuMessage
        oku_message :=
          { tag := OkuMessageTag.PointerButtonEvent
            pointer_button_event := { position := { x := x, y := y }, state := s } } } }

/-! ## The example: `state`, `view`, `update` -/

/-- The function `state` of `main.c`. -/
def state (_ : Unit) : ByteBox :=
  let a := c_literal "fff"
  new_byte_box a (strlen a)

/-- One run of `view`: the tree it returns and the memory behind its `state`
argument as the call leaves it. -/
structure ViewRun (A : Type) where
  ret : ComponentSpecification A
  state : BytePtr

/-- The function `view` of `main.c`; `default_styles` is the value of
`default_styles()`.  The argument is `const` and the body never reads or writes
through it. -/
def view {A : Type} (default_styles : Style A) (state : BytePtr) : ViewRun A :=
  let style : Style A := default_styles
  let style : Style A := { style with color := color_rgba 255 0 0 255 }
  let _container : Container A := new_container default_styles [] 0
  let text : Text A := new_text default_styles (c_literal "Foo")
  let text : Text A := { text with style := style }
  { ret := text_to_component text, state := state }

/-- One call of `printf` as `update` makes it: the format and the three
arguments. -/
structure PrintfCall (F : Type) where
  format : String
  x : F
  y : F
  s : BytePtr
  deriving DecidableEq

/-- Format string of the `printf` call of `update`. -/
def update_format : String :=
  "Button clicked at position (%.2f, %.2f) with state \x7b%s\x7d \n"

/-- One run of `update`: the result it returns, the memory behind its `state`
argument as the call leaves it, and the `printf` calls it made. -/
structure UpdateRun (F R : Type) where
  ret : R
  state : BytePtr
  stdout : List (PrintfCall F)

/-- The function `update` of `main.c`; `new_update_result` is the value of
`new_update_result()`.  The body never writes through `state`. -/
def update {F R : Type} (new_update_result : R) (state : BytePtr) (event : CEvent F) :
    UpdateRun F R :=
  let stdout : List (PrintfCall F) :=
    if event.message.tag = MessageTag.OkuMessage
        ∧ event.message.oku_message.tag = OkuMessageTag.PointerButtonEvent then
      let pointer_button_event := event.message.oku_message.pointer_button_event
      if pointer_button_event.state = ButtonState.Pressed then
        [{ format := update_format
           x := pointer_button_event.position.x
           y := pointer_button_event.position.y
           s := state }]
      else []
    else []
  { ret := new_update_result, state := state, stdout := stdout }

/-! ## The example: `main` -/

/-- Modelled from the spec: the component descriptor `ComponentData` of
`oku_c.h`: a tag and the four callbacks. -/
structure ComponentData (A F R : Type) where
  tag : BytePtr
  default_state : Unit → ByteBox
  default_props : Unit → ByteBox
  view_fn : BytePtr → ViewRun A
  update_fn : BytePtr → CEvent F → UpdateRun F R

/-- Modelled from the spec: the two fields of `OkuOptions` that `main` sets, the
renderer selection and the window title. -/
structure OkuOptions where
  renderer : Int
  window_title : BytePtr
  deriving DecidableEq

/-- A call from `main` into the runtime, with its arguments. -/
inductive RuntimeCall (A F R : Type) where
  | component (comp_data : ComponentData A F R)
  | oku_main (spec : ComponentSpecification A) (options : OkuOptions)

/-- One run of `main`: the calls it made into the runtime, in order, and its
return value; `none` when control never comes back to `main`. -/
structure MainRun (A F R : Type) where
  calls : List (RuntimeCall A F R)
  ret : Option Int

/-- The function `main` of `main.c`.  The parameters are what the absent runtime
supplies: the values of `default_styles()` and `new_update_result()`, the
function `component`, and `oku_main`, which answers `some ()` when it returns
and `none` when it never does. -/
def main {A F R : Type} (default_styles : Style A) (new_update_result : R)
    (component : ComponentData A F R → ComponentSpecification A)
    (oku_main : ComponentSpecification A → OkuOptions → Option Unit) : MainRun A F R :=
  let comp_data : ComponentData A F R :=
    { tag := c_literal "example_tag"
      default_state := state
      default_props := state
      view_fn := view default_styles
      update_fn := update new_update_result }
  let spec := component comp_data
  let options : OkuOptions := { renderer := 2, window_title := c_literal "Hello Oku C" }
  match oku_main spec options with
  | none =>
    { calls := [RuntimeCall.component comp_data, RuntimeCall.oku_main spec options]
      ret := none }
  | some _ =>
    { calls := [RuntimeCall.component comp_data, RuntimeCall.oku_main spec options]
      ret := some 0 }

/-! ## The update cycle, as far as the state goes -/

/-- Modelled from the spec: the Updating step of the runtime, which is not among
the sources, for one mounted component that receives every event.  Events are
admitted one at a time; each is passed to the update function together with the
state the previous call left, and nothing else writes the state.  The result is
the state after each call, in order. -/
def dispatch_states {F R : Type} (update_fn : BytePtr → CEvent F → UpdateRun F R) :
    BytePtr → List (CEvent F) → List BytePtr
  | _, [] => []
  | st, e :: es => (update_fn st e).state :: dispatch_states update_fn (update_fn st e).state es

/-- State that folding an update function over a sequence of events reaches. -/
def fold_update {F R : Type} (update_fn : BytePtr → CEvent F → UpdateRun F R)
    (st : BytePtr) (events : List (CEvent F)) : BytePtr :=
  events.foldl (fun s e => (update_fn s e).state) st

/-! ## Helper lemmas -/

theorem state_data : (state ()).data = [102, 102, 102] := by decide

theorem state_len : (state ()).len = 3 := by decide

theorem update_state {F R : Type} (new_update_result : R) (st : BytePtr) (event : CEvent F) :
    (update new_update_result st event).state = st := rfl

theorem fold_update_update {F R : Type} (new_update_result : R) (events : List (CEvent F)) :
    ∀ st : BytePtr, fold_update (update new_update_result) st events = st := by
  induction events with
  | nil => intro st; rfl
  | cons e es ih =>
    intro st
    exact ih st

theorem dispatch_states_eq_map_fold {F R : Type}
    (update_fn : BytePtr → CEvent F → UpdateRun F R) (events : List (CEvent F)) :
    ∀ st : BytePtr, dispatch_states update_fn st events =
      (List.range events.length).map
        (fun k => fold_update update_fn st (events.take (k + 1))) := by
  induction events with
  | nil => intro st; rfl
  | cons e es ih =>
    intro st
    rw [dispatch_states, ih, List.length_cons, List.range_succ_eq_map, List.map_cons,
      List.map_map]
    rfl

theorem percent_s_append (pre : List Nat) (hpre : ∀ b ∈ pre, b ≠ 0) (behind : BytePtr) :
    percent_s (pre ++ behind) =
      (percent_s behind).map (fun r => (pre ++ r.1, r.2 + pre.length)) := by
  induction pre with
  | nil =>
    rw [List.nil_append]
    cases percent_s behind <;> simp
  | cons b rest ih =>
    have hb : b ≠ 0 := hpre b (List.mem_cons_self _ _)
    have hrest : ∀ c ∈ rest, c ≠ 0 := fun c hc => hpre c (List.mem_cons_of_mem _ hc)
    rw [List.cons_append, percent_s, if_neg hb, ih hrest]
    cases percent_s behind <;> simp [Nat.add_assoc]

/-! ## The claims -/

/-- C2: for every sequence of events routed to the example component, the state
after each `update` call is the state that folding `update` over the events so
far reaches from the value of `state()`; as `update` never writes through its
state argument, after every prefix that state is unchanged and its bytes are
'fff'. -/
theorem dispatch_states_eq_fold_fff {F R : Type} (new_update_result : R) (behind : BytePtr)
    (events : List (CEvent F)) :
    dispatch_states (update new_update_result) ((state ()).as_ptr behind) events =
        (List.range events.length).map
          (fun k => fold_update (update new_update_result) ((state ()).as_ptr behind)
            (events.take (k + 1)))
    ∧ (∀ n : Nat,
        fold_update (update new_update_result) ((state ()).as_ptr behind) (events.take n) =
          (state ()).as_ptr behind)
    ∧ (∀ n : Nat,
        (fold_update (update new_update_result) ((state ()).as_ptr behind)
          (events.take n)).take (state ()).len = [102, 102, 102])
    ∧ dispatch_states (update new_update_result) ((state ()).as_ptr behind) events =
        List.replicate events.length ((state ()).as_ptr behind) := by
  refine ⟨dispatch_states_eq_map_fold _ _ _, fun n => fold_update_update _ _ _, fun n => ?_, ?_⟩
  · rw [fold_update_update]
    simp [ByteBox.as_ptr, state_data, state_len]
  · rw [dispatch_states_eq_map_fold]
    simp [fold_update_update, List.map_const']

/-- C5: the style of the text node that `view` returns is the default style
with the colour replaced by `color_rgba(255, 0, 0, 255)`: the attributes other
than the colour have their default values and the colour is (255, 0, 0, 255). -/
theorem view_style_overrides_color_only {A : Type} (default_styles : Style A) (st : BytePtr) :
    (view default_styles st).ret.node_style =
        some { default_styles with color := color_rgba 255 0 0 255 }
    ∧ (view default_styles st).ret.node_style.map (fun s => s.other) =
        some default_styles.other
    ∧ (view default_styles st).ret.node_style.map (fun s => s.color) =
        some { r := 255, g := 0, b := 0, a := 255 } :=
  ⟨rfl, rfl, rfl⟩

/-- C7: `state()` boxes the three bytes 'f', 'f', 'f' with length 3, the
`strlen` of the literal; the NUL that closes the literal sits at index 3 and is
not counted; every call returns the same box. -/
theorem state_is_fff_len_3 :
    state () = new_byte_box (c_literal "fff") 3
    ∧ (state ()).data = [102, 102, 102]
    ∧ (state ()).data = ['f', 'f', 'f'].map Char.toNat
    ∧ (state ()).len = 3
    ∧ (state ()).len = strlen (c_literal "fff")
    ∧ (state ()).data.length = (state ()).len
    ∧ (c_literal "fff").length = 4
    ∧ (c_literal "fff").get? 3 = some 0
    ∧ (∀ u v : Unit, state u = state v) := by
  refine ⟨by decide, by decide, by decide, by decide, by decide, by decide, by decide,
    by decide, fun _ _ => rfl⟩

/-- C8: on a `Pressed` event the `%s` conversion of the line `update` prints
reads the state as a NUL-terminated string.  Behind the three bytes of
`state()` it goes on reading up to the first NUL: with the bytes 'X', NUL behind
the state it prints "fffX" and reads 5 bytes, with a NUL right behind it reads 4
bytes, and with nothing readable behind it finds no end at all. -/
theorem update_percent_s_reads_past_state :
    (state ()).len = 3
    ∧ (update () ((state ()).as_ptr [88, 0])
          (pointer_button (10 : ℚ) 20 ButtonState.Pressed)).stdout.map
        (fun c => percent_s c.s) = [some ([102, 102, 102, 88], 5)]
    ∧ (update () ((state ()).as_ptr [0])
          (pointer_button (10 : ℚ) 20 ButtonState.Pressed)).stdout.map
        (fun c => percent_s c.s) = [some ([102, 102, 102], 4)]
    ∧ (update () ((state ()).as_ptr [])
          (pointer_button (10 : ℚ) 20 ButtonState.Pressed)).stdout.map
        (fun c => percent_s c.s) = [none]
    ∧ (∀ behind : BytePtr,
        (update () ((state ()).as_ptr behind)
            (pointer_button (10 : ℚ) 20 ButtonState.Pressed)).stdout.map
          (fun c => percent_s c.s) =
          [(percent_s behind).map (fun r => ([102, 102, 102] ++ r.1, r.2 + 3))]) := by
  refine ⟨by decide, by decide, by decide, by decide, fun behind => ?_⟩
  have h := percent_s_append [102, 102, 102] (by decide) behind
  simpa [update, pointer_button, ByteBox.as_ptr, state_data] using h

/-- C9: `main` makes two calls into the runtime, in this order: `component`, once,
with the descriptor of tag "example_tag" whose `default_state` and
`default_props` are both `state`, whose `view_fn` is `view` and whose `update_fn`
is `update`; then `oku_main`, once, with the specification `component` returned
and the options renderer 2, window title "Hello Oku C".  It returns 0 exactly
when `oku_main` has returned, and does not return otherwise. -/
theorem main_registers_one_component_then_runs {A F R : Type} (default_styles : Style A)
    (new_update_result : R) (component : ComponentData A F R → ComponentSpecification A)
    (oku_main : ComponentSpecification A → OkuOptions → Option Unit) :
    (main default_styles new_update_result component oku_main).calls =
        [RuntimeCall.component
            { tag := c_literal "example_tag"
              default_state := state
              default_props := state
              view_fn := view default_styles
              update_fn := update new_update_result },
          RuntimeCall.oku_main
            (component
              { tag := c_literal "example_tag"
                default_state := state
                default_props := state
                view_fn := view default_styles
                update_fn := update new_update_result })
            { renderer := 2, window_title := c_literal "Hello Oku C" }]
    ∧ ((main default_styles new_update_result component oku_main).ret = some 0 ↔
        oku_main
            (component
              { tag := c_literal "example_tag"
                default_state := state
                default_props := state
                view_fn := view default_styles
                update_fn := update new_update_result })
            { renderer := 2, window_title := c_literal "Hello Oku C" } = some ())
    ∧ ((main default_styles new_update_result component oku_main).ret = none ↔
        oku_main
            (component
              { tag := c_literal "example_tag"
                default_state := state
                default_props := state
                view_fn := view default_styles
                update_fn := update new_update_result })
            { renderer := 2, window_title := c_literal "Hello Oku C" } = none) := by
  unfold main
  cases h : oku_main
      (component
        { tag := c_literal "example_tag"
          default_state := state
          default_props := state
          view_fn := view default_styles
          update_fn := update new_update_result })
      { renderer := 2, window_title := c_literal "Hello Oku C" } <;> simp [h]

/-- C10: for every state argument `view` returns `text_to_component` of the text
node with payload "Foo"; any two states give the same tree; the tree is a single
text node without children, so the empty container built inside `view` is no
part of it. -/
theorem view_returns_foo_text {A : Type} (default_styles : Style A) (st st2 : BytePtr) :
    (view default_styles st).ret =
        text_to_component
          { content := ['F', 'o', 'o'].map Char.toNat
            style := { default_styles with color := color_rgba 255 0 0 255 } }
    ∧ (view default_styles st).ret.text_payload = some [70, 111, 111]
    ∧ (view default_styles st).ret = (view default_styles st2).ret
    ∧ (view default_styles st).ret.kinds = [NodeKind.Text]
    ∧ (view default_styles st).ret.node_children = []
    ∧ (view default_styles st).ret ≠
        container_to_component (new_container default_styles [] 0) := by
  refine ⟨rfl, rfl, rfl, ?_, rfl, ?_⟩
  · simp [view, text_to_component, ComponentSpecification.kinds]
  · simp [view, text_to_component, container_to_component]

end OkuExample
